import Mathlib

/-!
# qMRMLTransformInfoWidget: state-passing embedding

Embedding of `Modules/Loadable/Transforms/Widgets/qMRMLTransformInfoWidget.cxx`.

* Pointers to external objects (transform nodes, layout managers, interaction
  styles) are identities of type `Nat`; a pointer that may be null is an
  `Option Nat`.  The objects behind the pointers live in a `World`, which every
  operation receives: it resolves a layout manager to its current slice views
  and a transform node to its current descriptions and point mapping.
* The widget is a record `Widget` holding the three private members, the Qt
  properties the code writes (enabled flag, the two text browsers, the
  displacement label) and the two subscription registries it drives.
* `Q_ASSERT` failures and out-of-range `QList` accesses abort the program; the
  operations that contain them return `Except Abort`.  Assertions are taken as
  checked; where they are compiled out, a failed slice-widget lookup is a null
  dereference at the next statement.
* Pointers obtained from external objects are valid: a layout manager or
  transform node held by the widget exists in the world, a slice view has an
  interaction style, and an interaction style has an interactor.
* `enabled` is the flag last passed to `setEnabled` on the widget.
* `double` values are an abstract type `R` with the two library operations the
  code uses on them (`DoubleOps`).
-/

namespace TransformInfoWidget

/-! ## External objects -/

/-- Event identifiers of `vtkCommand` that the widget names, and all others. -/
inductive VtkEvent where
  | MouseMoveEvent
  | EnterEvent
  | LeaveEvent
  | ModifiedEvent
  | otherEvent (id : Nat)
  deriving DecidableEq, Repr

/-- A `vtkObject` as seen through `vtkInteractorObserver::SafeDownCast`: either an
interactor observer (an interaction style, with its identity) or something else. -/
inductive VtkObject where
  | interactorObserver (style : Nat)
  | otherObject (id : Nat)
  deriving DecidableEq, Repr

/-- A `vtkMRMLNode` as seen through `vtkMRMLTransformNode::SafeDownCast`. -/
inductive MRMLNode where
  | transformNode (id : Nat)
  | otherNode (id : Nat)
  deriving DecidableEq, Repr

/-- The library operations on `double` used by `processEvent`: subtraction and
`QString::arg(value, 0, 'f', 1)` (fixed format, one decimal place). -/
structure DoubleOps (R : Type) where
  sub : R → R → R
  argF1 : R → String

/-- The part of `qMRMLSliceView` the widget uses. -/
structure SliceView (R : Type) where
  interactorStyle : Nat
  convertDeviceToXYZ : List Int → List R
  convertXYZToRAS : List R → List R

/-- The part of `qMRMLSliceWidget` the widget uses. -/
structure SliceWidget (R : Type) where
  id : Nat
  sliceView : SliceView R

/-- The part of `qSlicerLayoutManager` the widget uses: the names of the slice
views of the current layout and the (nullable) widget found under a name. -/
structure LayoutManager (R : Type) where
  sliceViewNames : List String
  sliceWidget : String → Option (SliceWidget R)

/-- The part of `vtkMRMLTransformNode` the widget uses; `transformDoublePoint` is
`GetTransformToParent()->TransformDoublePoint`. -/
structure TransformNode (R : Type) where
  transformToParentInfo : String
  transformFromParentInfo : String
  transformDoublePoint : R → R → R → R × R × R

/-- The objects behind the pointers held by the widget, at the time of a call.
`eventPosition st` is `GetEventPosition` of the interactor of style `st`. -/
structure World (R : Type) where
  layoutManager : Nat → LayoutManager R
  transformNode : Nat → TransformNode R
  eventPosition : Nat → Int × Int

/-! ## Subscription registries -/

/-- The two slots of the widget that are connected to VTK events. -/
inductive Slot where
  | processEvent
  | updateWidgetFromMRML
  deriving DecidableEq, Repr

/-- The VTK object a connection observes. -/
inductive Source where
  | interactorStyle (id : Nat)
  | transformNode (id : Nat)
  deriving DecidableEq, Repr

/-- One `qvtk` connection of the widget: (source object, event kind, handler). -/
structure Connection where
  source : Source
  event : VtkEvent
  slot : Slot
  deriving DecidableEq, Repr

/-- Modelled from the spec: `qvtkConnect` (CTK, not in this repository) is the
"subscribe by (source object, event kind, handler)" of the notification
protocol; the registry holds a subscription at most once. -/
def qvtkConnect (c : Connection) (conns : List Connection) : List Connection :=
  if c ∈ conns then conns else conns ++ [c]

/-- Modelled from the spec: `qvtkDisconnect` (CTK, not in this repository) is the
"unsubscribe by (source object, event kind, handler)" of the notification
protocol. -/
def qvtkDisconnect (c : Connection) (conns : List Connection) : List Connection :=
  conns.filter (fun d => decide (d ≠ c))

/-- Modelled from the spec: `qvtkReconnect` (CTK, not in this repository)
"unsubscribes from the previous object (if any), subscribes to the new one
(if any)". -/
def qvtkReconnect (old new : Option Source) (event : VtkEvent) (slot : Slot)
    (conns : List Connection) : List Connection :=
  let conns1 := match old with
    | none => conns
    | some o => qvtkDisconnect ⟨o, event, slot⟩ conns
  match new with
  | none => conns1
  | some n => qvtkConnect ⟨n, event, slot⟩ conns1

/-- Modelled from the spec: Qt `connect` of a manager's `layoutChanged()` signal
to the slot `onLayoutChanged()`; the registry lists the connected managers. -/
def connectLayoutChanged (m : Nat) (conns : List Nat) : List Nat :=
  conns ++ [m]

/-- Modelled from the spec: Qt `disconnect` of a manager's `layoutChanged()`
signal from the slot `onLayoutChanged()`. -/
def disconnectLayoutChanged (m : Nat) (conns : List Nat) : List Nat :=
  conns.filter (fun d => decide (d ≠ m))

/-! ## Widget state -/

/-- Why an operation aborts: `nullSliceWidget` is `Q_ASSERT(sliceWidget)` in the
two private lookups, `callerNotObserved` is
`Q_ASSERT(d->ObservedInteractorStyles.indexOf(interactorStyle) != -1)`,
`sliceWidgetNotFound` is `Q_ASSERT(sliceWidget)` in `processEvent`, and
`indexOutOfRange` is `ras[i]` on a list with fewer than three elements. -/
inductive Abort where
  | nullSliceWidget
  | callerNotObserved
  | sliceWidgetNotFound
  | indexOutOfRange
  deriving DecidableEq, Repr

/-- State of a `qMRMLTransformInfoWidget`: the private members, the properties of
the widget and of its three child widgets that the code writes, and the
subscriptions it holds. -/
structure Widget where
  MRMLTransformNode : Option Nat
  LayoutManager : Option Nat
  ObservedInteractorStyles : List Nat
  enabled : Bool
  TransformToParentInfoTextBrowser : String
  TransformFromParentInfoTextBrowser : String
  ViewerDisplacementVectorRAS : String
  connections : List Connection
  layoutChangedConnections : List Nat
  deriving DecidableEq, Repr

/-! ## Private helpers -/

/-- `qMRMLTransformInfoWidgetPrivate::resetLabels`. -/
def resetLabels (s : Widget) : Widget :=
  { s with ViewerDisplacementVectorRAS := "" }

/-- `qMRMLTransformInfoWidgetPrivate::init`.  `setupUi` comes from the `.ui`
file, which is not in the repository: the texts it gives the two text browsers
and the label are parameters.  The text interaction flags are not part of the
state. -/
def init (uiToParent uiFromParent uiLabel : String) (s : Widget) : Widget :=
  let s1 : Widget :=
    { s with
      TransformToParentInfoTextBrowser := uiToParent
      TransformFromParentInfoTextBrowser := uiFromParent
      ViewerDisplacementVectorRAS := uiLabel }
  resetLabels { s1 with enabled := s1.MRMLTransformNode.isSome }

/-- The constructor `qMRMLTransformInfoWidget::qMRMLTransformInfoWidget`: the
members as the private constructor initialises them, in a widget that is enabled
and empty as a new `QWidget` is, then `init`. -/
def construct (uiToParent uiFromParent uiLabel : String) : Widget :=
  init uiToParent uiFromParent uiLabel
    { MRMLTransformNode := none
      LayoutManager := none
      ObservedInteractorStyles := []
      enabled := true
      TransformToParentInfoTextBrowser := ""
      TransformFromParentInfoTextBrowser := ""
      ViewerDisplacementVectorRAS := ""
      connections := []
      layoutChangedConnections := [] }

/-- The loop of `slicerWidget` over the slice view names. -/
def slicerWidgetLoop {R : Type} (lm : LayoutManager R) (interactorStyle : Nat) :
    List String → Except Abort (Option (SliceWidget R))
  | [] => .ok none
  | sliceViewName :: rest =>
    match lm.sliceWidget sliceViewName with
    | none => .error .nullSliceWidget
    | some sliceWidget =>
      if sliceWidget.sliceView.interactorStyle = interactorStyle then
        .ok (some sliceWidget)
      else
        slicerWidgetLoop lm interactorStyle rest

/-- `qMRMLTransformInfoWidgetPrivate::slicerWidget`. -/
def slicerWidget {R : Type} (w : World R) (s : Widget) (interactorStyle : Nat) :
    Except Abort (Option (SliceWidget R)) :=
  match s.LayoutManager with
  | none => .ok none
  | some m =>
    slicerWidgetLoop (w.layoutManager m) interactorStyle (w.layoutManager m).sliceViewNames

/-- The loop of `currentLayoutSliceViewInteractorStyles`, appending to
`interactorStyles`. -/
def interactorStylesLoop {R : Type} (lm : LayoutManager R) (interactorStyles : List Nat) :
    List String → Except Abort (List Nat)
  | [] => .ok interactorStyles
  | sliceViewName :: rest =>
    match lm.sliceWidget sliceViewName with
    | none => .error .nullSliceWidget
    | some sliceWidget =>
      interactorStylesLoop lm (interactorStyles ++ [sliceWidget.sliceView.interactorStyle]) rest

/-- `qMRMLTransformInfoWidgetPrivate::currentLayoutSliceViewInteractorStyles`. -/
def currentLayoutSliceViewInteractorStyles {R : Type} (w : World R) (s : Widget) :
    Except Abort (List Nat) :=
  match s.LayoutManager with
  | none => .ok []
  | some m => interactorStylesLoop (w.layoutManager m) [] (w.layoutManager m).sliceViewNames

/-! ## Public operations -/

/-- The events observed on every interaction style, in the order of the source. -/
def observedEvents : List VtkEvent :=
  [.MouseMoveEvent, .EnterEvent, .LeaveEvent]

/-- Inner loop of "Remove observers": `qvtkDisconnect` of the three events of one
interaction style from `processEvent`. -/
def disconnectStyle (conns : List Connection) (style : Nat) : List Connection :=
  observedEvents.foldl
    (fun cs event => qvtkDisconnect ⟨.interactorStyle style, event, .processEvent⟩ cs) conns

/-- Inner loop of "Add observers": `qvtkConnect` of the three events of one
interaction style to `processEvent`. -/
def connectStyle (conns : List Connection) (style : Nat) : List Connection :=
  observedEvents.foldl
    (fun cs event => qvtkConnect ⟨.interactorStyle style, event, .processEvent⟩ cs) conns

/-- Body of the "Add observers" loop: connect the style, then append it to
`ObservedInteractorStyles`. -/
def addObserver (s : Widget) (interactorStyle : Nat) : Widget :=
  { s with
    connections := connectStyle s.connections interactorStyle
    ObservedInteractorStyles := s.ObservedInteractorStyles ++ [interactorStyle] }

/-- `qMRMLTransformInfoWidget::onLayoutChanged`. -/
def onLayoutChanged {R : Type} (w : World R) (s : Widget) : Except Abort Widget :=
  let s1 : Widget :=
    { s with
      connections := s.ObservedInteractorStyles.foldl disconnectStyle s.connections
      ObservedInteractorStyles := [] }
  match currentLayoutSliceViewInteractorStyles w s1 with
  | .error e => .error e
  | .ok interactorStyles => .ok (interactorStyles.foldl addObserver s1)

/-- `qMRMLTransformInfoWidget::layoutManager` (`CTK_GET_CPP`). -/
def layoutManager (s : Widget) : Option Nat :=
  s.LayoutManager

/-- `qMRMLTransformInfoWidget::setLayoutManager`. -/
def setLayoutManager {R : Type} (w : World R) (s : Widget) (layoutManager : Option Nat) :
    Except Abort Widget :=
  if layoutManager = s.LayoutManager then
    .ok s
  else
    let conns1 := match s.LayoutManager with
      | none => s.layoutChangedConnections
      | some old => disconnectLayoutChanged old s.layoutChangedConnections
    let conns2 := match layoutManager with
      | none => conns1
      | some new => connectLayoutChanged new conns1
    onLayoutChanged w
      { s with layoutChangedConnections := conns2, LayoutManager := layoutManager }

/-- `vtkInteractorObserver::SafeDownCast` of the caller of `processEvent`. -/
def vtkInteractorObserver.SafeDownCast : Option VtkObject → Option Nat
  | some (.interactorObserver style) => some style
  | _ => none

/-- The text set on the displacement label: the result of the three chained
`QString::arg` calls on "Displacement Vector in RAS: (%1, %2, %3)", each marker
replaced by the rendering of one component. -/
def displacementText (x y z : String) : String :=
  "Displacement Vector in RAS: (" ++ x ++ ", " ++ y ++ ", " ++ z ++ ")"

/-- `qMRMLTransformInfoWidget::processEvent`.  `callData` and `clientData` are unused. -/
def processEvent {R : Type} (ops : DoubleOps R) (w : World R) (s : Widget)
    (caller : Option VtkObject) (eventId : VtkEvent) : Except Abort Widget :=
  if eventId = .LeaveEvent then
    .ok (resetLabels s)
  else if eventId = .EnterEvent ∨ eventId = .MouseMoveEvent then
    match vtkInteractorObserver.SafeDownCast caller with
    | none => .error .callerNotObserved
    | some interactorStyle =>
      if interactorStyle ∉ s.ObservedInteractorStyles then
        .error .callerNotObserved
      else
        let xy := w.eventPosition interactorStyle
        match slicerWidget w s interactorStyle with
        | .error e => .error e
        | .ok none => .error .sliceWidgetNotFound
        | .ok (some sliceWidget) =>
          let xyz := sliceWidget.sliceView.convertDeviceToXYZ [xy.1, xy.2]
          let ras := sliceWidget.sliceView.convertXYZToRAS xyz
          match s.MRMLTransformNode with
          | none => .ok s
          | some t =>
            match ras with
            | ras0 :: ras1 :: ras2 :: _ =>
              let rasDisplaced := (w.transformNode t).transformDoublePoint ras0 ras1 ras2
              .ok { s with
                    ViewerDisplacementVectorRAS :=
                      displacementText
                        (ops.argF1 (ops.sub rasDisplaced.1 ras0))
                        (ops.argF1 (ops.sub rasDisplaced.2.1 ras1))
                        (ops.argF1 (ops.sub rasDisplaced.2.2 ras2)) }
            | _ => .error .indexOutOfRange
  else
    .ok s

/-- `qMRMLTransformInfoWidget::mrmlTransformNode`. -/
def mrmlTransformNode (s : Widget) : Option Nat :=
  s.MRMLTransformNode

/-- `qMRMLTransformInfoWidget::updateWidgetFromMRML`. -/
def updateWidgetFromMRML {R : Type} (w : World R) (s : Widget) : Widget :=
  let s1 : Widget :=
    match s.MRMLTransformNode with
    | some t =>
      { s with
        TransformToParentInfoTextBrowser := (w.transformNode t).transformToParentInfo
        TransformFromParentInfoTextBrowser := (w.transformNode t).transformFromParentInfo }
    | none =>
      { s with
        TransformToParentInfoTextBrowser := ""
        TransformFromParentInfoTextBrowser := "" }
  { s1 with enabled := s1.MRMLTransformNode.isSome }

/-- `qMRMLTransformInfoWidget::setMRMLTransformNode(vtkMRMLTransformNode*)`. -/
def setMRMLTransformNode {R : Type} (w : World R) (s : Widget) (transformNode : Option Nat) :
    Widget :=
  updateWidgetFromMRML w
    { s with
      connections :=
        qvtkReconnect (s.MRMLTransformNode.map Source.transformNode)
          (transformNode.map Source.transformNode) .ModifiedEvent .updateWidgetFromMRML
          s.connections
      MRMLTransformNode := transformNode }

/-- `vtkMRMLTransformNode::SafeDownCast`. -/
def vtkMRMLTransformNode.SafeDownCast : Option MRMLNode → Option Nat
  | some (.transformNode id) => some id
  | _ => none

/-- `qMRMLTransformInfoWidget::setMRMLTransformNode(vtkMRMLNode*)`. -/
def setMRMLTransformNodeFromNode {R : Type} (w : World R) (s : Widget)
    (node : Option MRMLNode) : Widget :=
  setMRMLTransformNode w s (vtkMRMLTransformNode.SafeDownCast node)

/-! ## Reachable states -/

/-- States reachable from a freshly constructed widget by the public operations,
each called in an arbitrary world. -/
inductive Reachable {R : Type} (ops : DoubleOps R) : Widget → Prop where
  | fresh (a b c : String) : Reachable ops (construct a b c)
  | transformSet {s : Widget} (w : World R) (t : Option Nat) :
      Reachable ops s → Reachable ops (setMRMLTransformNode w s t)
  | managerSet {s s1 : Widget} (w : World R) (m : Option Nat) :
      Reachable ops s → setLayoutManager w s m = .ok s1 → Reachable ops s1
  | layoutChanged {s s1 : Widget} (w : World R) :
      Reachable ops s → onLayoutChanged w s = .ok s1 → Reachable ops s1
  | eventProcessed {s s1 : Widget} (w : World R) (caller : Option VtkObject) (e : VtkEvent) :
      Reachable ops s → processEvent ops w s caller e = .ok s1 → Reachable ops s1
  | updated {s : Widget} (w : World R) :
      Reachable ops s → Reachable ops (updateWidgetFromMRML w s)

/-- States reached in the world `w` by `onLayoutChanged`, or by `setLayoutManager`
with a manager different from the one held, from any state, and then by any
further operations, all called in the same world `w`: the slice views of the
layout have not changed since. -/
inductive SyncedWith {R : Type} (ops : DoubleOps R) (w : World R) : Widget → Prop where
  | layoutChanged {s s1 : Widget} :
      onLayoutChanged w s = .ok s1 → SyncedWith ops w s1
  | managerChanged {s s1 : Widget} (m : Option Nat) :
      m ≠ s.LayoutManager → setLayoutManager w s m = .ok s1 → SyncedWith ops w s1
  | transformSet {s : Widget} (t : Option Nat) :
      SyncedWith ops w s → SyncedWith ops w (setMRMLTransformNode w s t)
  | managerSet {s s1 : Widget} (m : Option Nat) :
      SyncedWith ops w s → setLayoutManager w s m = .ok s1 → SyncedWith ops w s1
  | eventProcessed {s s1 : Widget} (caller : Option VtkObject) (e : VtkEvent) :
      SyncedWith ops w s → processEvent ops w s caller e = .ok s1 → SyncedWith ops w s1
  | updated {s : Widget} :
      SyncedWith ops w s → SyncedWith ops w (updateWidgetFromMRML w s)

/-! ## Specification-side definitions -/

/-- The connections of `processEvent` to the three observed events of one
interaction style. -/
def styleConnections (style : Nat) : List Connection :=
  [⟨.interactorStyle style, .MouseMoveEvent, .processEvent⟩,
   ⟨.interactorStyle style, .EnterEvent, .processEvent⟩,
   ⟨.interactorStyle style, .LeaveEvent, .processEvent⟩]

/-- The connection of `c` is one of the three observed events of a style of `l`. -/
def IsObserverConnection (l : List Nat) (c : Connection) : Prop :=
  ∃ style ∈ l, c ∈ styleConnections style

/-- The interaction styles of the slice views of the current layout of a layout
manager, one per slice view name, in the order of the names; empty when there is
no layout manager. -/
def layoutStyles {R : Type} (w : World R) : Option Nat → List Nat
  | none => []
  | some m =>
    (w.layoutManager m).sliceViewNames.filterMap
      (fun name => ((w.layoutManager m).sliceWidget name).map (fun sw => sw.sliceView.interactorStyle))

/-- Every slice view name of the current layout of the manager has a slice widget. -/
def LayoutResolved {R : Type} (w : World R) (manager : Option Nat) : Prop :=
  ∀ m, manager = some m →
    ∀ name ∈ (w.layoutManager m).sliceViewNames, ((w.layoutManager m).sliceWidget name).isSome = true

/-- The connection of `updateWidgetFromMRML` to the modification event of a
transform node. -/
def modifiedConnection (t : Nat) : Connection :=
  ⟨.transformNode t, .ModifiedEvent, .updateWidgetFromMRML⟩

/-- The state `onLayoutChanged` returns when the current layout has the interaction
styles `styles`: the previous observers removed, those of `styles` added. -/
def layoutChangedTo (s : Widget) (styles : List Nat) : Widget :=
  styles.foldl addObserver
    { s with
      connections := s.ObservedInteractorStyles.foldl disconnectStyle s.connections
      ObservedInteractorStyles := [] }

/-- Every observed interaction style is the style of the slice widget that
`slicerWidget` finds for it. -/
def ObservedOwned {R : Type} (w : World R) (s : Widget) : Prop :=
  ∀ style ∈ s.ObservedInteractorStyles,
    ∃ sw, slicerWidget w s style = .ok (some sw) ∧ sw.sliceView.interactorStyle = style

/-! ## A concrete world -/

/-- Integer-valued coordinates: subtraction of integers, rendered with one
decimal place. -/
def intOps : DoubleOps Int where
  sub := fun a b => a - b
  argF1 := fun a => toString a ++ ".0"

/-- A slice view with interaction style `style` whose device-to-world conversion
puts the device point `(x, y)` at the world point `(x, y, 0)`. -/
def demoView (style : Nat) : SliceView Int where
  interactorStyle := style
  convertDeviceToXYZ := fun xy => xy ++ [0]
  convertXYZToRAS := fun xyz => xyz

/-- A layout manager showing the views "Red" (style 7) and "Yellow" (style 8). -/
def demoLayout : LayoutManager Int where
  sliceViewNames := ["Red", "Yellow"]
  sliceWidget := fun name =>
    if name = "Red" then some ⟨1, demoView 7⟩
    else if name = "Yellow" then some ⟨2, demoView 8⟩
    else none

/-- A world in which every layout manager shows `demoLayout`, every transform
translates by `(1, 2, 3)` and every pointer is at device position `(10, 20)`. -/
def demoWorld : World Int where
  layoutManager := fun _ => demoLayout
  transformNode := fun _ =>
    { transformToParentInfo := "to parent"
      transformFromParentInfo := "from parent"
      transformDoublePoint := fun x y z => (x + 1, y + 2, z + 3) }
  eventPosition := fun _ => (10, 20)

/-- A world in which every layout manager shows a layout without slice views. -/
def emptyWorld : World Int where
  layoutManager := fun _ => { sliceViewNames := [], sliceWidget := fun _ => none }
  transformNode := demoWorld.transformNode
  eventPosition := demoWorld.eventPosition

/-- A world in which every layout manager shows the single view "Green", of
style 99. -/
def greenWorld : World Int where
  layoutManager := fun _ =>
    { sliceViewNames := ["Green"]
      sliceWidget := fun name => if name = "Green" then some ⟨3, demoView 99⟩ else none }
  transformNode := demoWorld.transformNode
  eventPosition := demoWorld.eventPosition

/-- The fresh widget after `setLayoutManager(1)` in `greenWorld`: it holds manager
1 and observes style 99. -/
def observing99 : Widget :=
  { construct "" "" "" with
    LayoutManager := some 1
    ObservedInteractorStyles := [99]
    connections :=
      [⟨.interactorStyle 99, .MouseMoveEvent, .processEvent⟩,
       ⟨.interactorStyle 99, .EnterEvent, .processEvent⟩,
       ⟨.interactorStyle 99, .LeaveEvent, .processEvent⟩]
    layoutChangedConnections := [1] }

/-- The fresh widget after `setLayoutManager(1)` in `emptyWorld`: it holds manager
1, is connected to its layout-changed signal and observes no style. -/
def staleWidget : Widget :=
  { construct "" "" "" with LayoutManager := some 1, layoutChangedConnections := [1] }

/-- The fresh widget after `setMRMLTransformNode(5)` in `demoWorld`. -/
def attachedWidget : Widget :=
  setMRMLTransformNode demoWorld (construct "" "" "") (some 5)

/-- The state `attachedWidget` after `setLayoutManager(1)` in `demoWorld`. -/
def observingWidget : Widget :=
  { attachedWidget with
    LayoutManager := some 1
    ObservedInteractorStyles := [7, 8]
    connections := [modifiedConnection 5] ++ styleConnections 7 ++ styleConnections 8
    layoutChangedConnections := [1] }

/-- The state `observingWidget` after the pointer entered the view of style 8. -/
def labelledWidget : Widget :=
  { observingWidget with
    ViewerDisplacementVectorRAS := "Displacement Vector in RAS: (1.0, 2.0, 3.0)" }

/-- The fresh widget after `setLayoutManager(1)` in `demoWorld`. -/
def unattachedObservingWidget : Widget :=
  { construct "" "" "" with
    LayoutManager := some 1
    ObservedInteractorStyles := [7, 8]
    connections :=
      [⟨.interactorStyle 7, .MouseMoveEvent, .processEvent⟩,
       ⟨.interactorStyle 7, .EnterEvent, .processEvent⟩,
       ⟨.interactorStyle 7, .LeaveEvent, .processEvent⟩,
       ⟨.interactorStyle 8, .MouseMoveEvent, .processEvent⟩,
       ⟨.interactorStyle 8, .EnterEvent, .processEvent⟩,
       ⟨.interactorStyle 8, .LeaveEvent, .processEvent⟩]
    layoutChangedConnections := [1] }

/-! ## Lemmas on the registries -/

theorem mem_qvtkConnect (c d : Connection) (conns : List Connection) :
    d ∈ qvtkConnect c conns ↔ d ∈ conns ∨ d = c := by
  unfold qvtkConnect
  split
  · constructor
    · intro h; exact Or.inl h
    · rintro (h | h)
      · exact h
      · subst h; assumption
  · simp

theorem mem_qvtkDisconnect (c d : Connection) (conns : List Connection) :
    d ∈ qvtkDisconnect c conns ↔ d ∈ conns ∧ d ≠ c := by
  simp [qvtkDisconnect]

theorem mem_styleConnections (style : Nat) (d : Connection) :
    d ∈ styleConnections style ↔
      d = ⟨.interactorStyle style, .MouseMoveEvent, .processEvent⟩ ∨
      d = ⟨.interactorStyle style, .EnterEvent, .processEvent⟩ ∨
      d = ⟨.interactorStyle style, .LeaveEvent, .processEvent⟩ := by
  simp [styleConnections]

theorem isObserverConnection_iff (l : List Nat) (style : Nat) (e : VtkEvent) :
    IsObserverConnection l ⟨.interactorStyle style, e, .processEvent⟩ ↔
      style ∈ l ∧ (e = .MouseMoveEvent ∨ e = .EnterEvent ∨ e = .LeaveEvent) := by
  simp only [IsObserverConnection, mem_styleConnections, Connection.mk.injEq,
    Source.interactorStyle.injEq, and_true]
  constructor
  · rintro ⟨p, hp, h | h | h⟩ <;> obtain ⟨rfl, rfl⟩ := h <;> simp [hp]
  · rintro ⟨hs, h | h | h⟩ <;> subst h <;> exact ⟨style, hs, by simp⟩

theorem mem_connectStyle (conns : List Connection) (style : Nat) (d : Connection) :
    d ∈ connectStyle conns style ↔ d ∈ conns ∨ d ∈ styleConnections style := by
  simp only [connectStyle, observedEvents, List.foldl_cons, List.foldl_nil, mem_qvtkConnect,
    mem_styleConnections]
  tauto

theorem mem_disconnectStyle (conns : List Connection) (style : Nat) (d : Connection) :
    d ∈ disconnectStyle conns style ↔ d ∈ conns ∧ d ∉ styleConnections style := by
  simp only [disconnectStyle, observedEvents, List.foldl_cons, List.foldl_nil,
    mem_qvtkDisconnect, mem_styleConnections]
  tauto

theorem mem_foldl_disconnectStyle (l : List Nat) (conns : List Connection) (d : Connection) :
    d ∈ l.foldl disconnectStyle conns ↔ d ∈ conns ∧ ¬ IsObserverConnection l d := by
  induction l generalizing conns with
  | nil => simp [IsObserverConnection]
  | cons a l ih =>
    simp only [List.foldl_cons, ih, mem_disconnectStyle, IsObserverConnection, List.mem_cons,
      exists_eq_or_imp, not_or, and_assoc]

theorem foldl_addObserver_observed (l : List Nat) (s : Widget) :
    (l.foldl addObserver s).ObservedInteractorStyles = s.ObservedInteractorStyles ++ l := by
  induction l generalizing s with
  | nil => simp
  | cons a l ih => simp [List.foldl_cons, ih, addObserver]

theorem mem_foldl_addObserver (l : List Nat) (s : Widget) (d : Connection) :
    d ∈ (l.foldl addObserver s).connections ↔ d ∈ s.connections ∨ IsObserverConnection l d := by
  induction l generalizing s with
  | nil => simp [IsObserverConnection]
  | cons a l ih =>
    simp only [List.foldl_cons, ih, addObserver, mem_connectStyle, IsObserverConnection,
      List.mem_cons, exists_eq_or_imp, or_assoc]

theorem foldl_addObserver_frame (l : List Nat) (s : Widget) :
    (l.foldl addObserver s).MRMLTransformNode = s.MRMLTransformNode ∧
    (l.foldl addObserver s).LayoutManager = s.LayoutManager ∧
    (l.foldl addObserver s).enabled = s.enabled ∧
    (l.foldl addObserver s).TransformToParentInfoTextBrowser = s.TransformToParentInfoTextBrowser ∧
    (l.foldl addObserver s).TransformFromParentInfoTextBrowser =
      s.TransformFromParentInfoTextBrowser ∧
    (l.foldl addObserver s).ViewerDisplacementVectorRAS = s.ViewerDisplacementVectorRAS ∧
    (l.foldl addObserver s).layoutChangedConnections = s.layoutChangedConnections := by
  induction l generalizing s with
  | nil => simp
  | cons a l ih =>
    have h := ih (addObserver s a)
    simpa [List.foldl_cons, addObserver] using h

/-! ## Lemmas on the two lookups -/

theorem interactorStylesLoop_resolved {R : Type} (lm : LayoutManager R) (names : List String)
    (acc : List Nat) (h : ∀ name ∈ names, (lm.sliceWidget name).isSome = true) :
    interactorStylesLoop lm acc names =
      .ok (acc ++ names.filterMap
        (fun name => (lm.sliceWidget name).map (fun sw => sw.sliceView.interactorStyle))) := by
  induction names generalizing acc with
  | nil => simp [interactorStylesLoop]
  | cons n rest ih =>
    have hn := h n (List.mem_cons_self _ _)
    have hrest : ∀ name ∈ rest, (lm.sliceWidget name).isSome = true :=
      fun name hm => h name (List.mem_cons_of_mem _ hm)
    cases hw : lm.sliceWidget n with
    | none => simp [hw] at hn
    | some sw =>
      simp [interactorStylesLoop, hw, ih _ hrest, List.filterMap_cons]

theorem filterMap_length_resolved {R : Type} (lm : LayoutManager R) (names : List String)
    (h : ∀ name ∈ names, (lm.sliceWidget name).isSome = true) :
    (names.filterMap
      (fun name => (lm.sliceWidget name).map (fun sw => sw.sliceView.interactorStyle))).length =
      names.length := by
  induction names with
  | nil => simp
  | cons n rest ih =>
    have hn := h n (List.mem_cons_self _ _)
    have hrest : ∀ name ∈ rest, (lm.sliceWidget name).isSome = true :=
      fun name hm => h name (List.mem_cons_of_mem _ hm)
    cases hw : lm.sliceWidget n with
    | none => simp [hw] at hn
    | some sw => simp [List.filterMap_cons, hw, ih hrest]

theorem interactorStylesLoop_found {R : Type} (lm : LayoutManager R) (names : List String)
    (acc l : List Nat) (h : interactorStylesLoop lm acc names = .ok l) :
    ∀ style ∈ l, style ∈ acc ∨
      ∃ sw, slicerWidgetLoop lm style names = .ok (some sw) ∧
        sw.sliceView.interactorStyle = style := by
  induction names generalizing acc with
  | nil =>
    simp only [interactorStylesLoop, Except.ok.injEq] at h
    subst h
    intro style hs
    exact Or.inl hs
  | cons n rest ih =>
    cases hw : lm.sliceWidget n with
    | none => simp [interactorStylesLoop, hw] at h
    | some sw0 =>
      simp only [interactorStylesLoop, hw] at h
      intro style hs
      by_cases hq : sw0.sliceView.interactorStyle = style
      · exact Or.inr ⟨sw0, by simp [slicerWidgetLoop, hw, hq], hq⟩
      · rcases ih _ h style hs with hmem | ⟨sw, hsw, hst⟩
        · rcases List.mem_append.mp hmem with hacc | hlast
          · exact Or.inl hacc
          · simp only [List.mem_singleton] at hlast
            exact absurd hlast.symm hq
        · exact Or.inr ⟨sw, by simp [slicerWidgetLoop, hw, hq, hsw], hst⟩

theorem slicerWidgetLoop_absent {R : Type} (lm : LayoutManager R) (style : Nat)
    (names : List String)
    (h : ∀ name ∈ names, ∃ sw, lm.sliceWidget name = some sw ∧
      sw.sliceView.interactorStyle ≠ style) :
    slicerWidgetLoop lm style names = .ok none := by
  induction names with
  | nil => simp [slicerWidgetLoop]
  | cons n rest ih =>
    obtain ⟨sw, hsw, hne⟩ := h n (List.mem_cons_self _ _)
    have hrest := ih (fun name hm => h name (List.mem_cons_of_mem _ hm))
    simp [slicerWidgetLoop, hsw, hne, hrest]

/-! ## Lemmas on the operations -/

theorem currentStyles_resolved {R : Type} (w : World R) (s : Widget)
    (hres : LayoutResolved w s.LayoutManager) :
    currentLayoutSliceViewInteractorStyles w s = .ok (layoutStyles w s.LayoutManager) := by
  unfold currentLayoutSliceViewInteractorStyles
  cases hm : s.LayoutManager with
  | none => simp [layoutStyles]
  | some m =>
    have h := interactorStylesLoop_resolved (w.layoutManager m)
      (w.layoutManager m).sliceViewNames [] (hres m hm)
    simpa [layoutStyles] using h

theorem onLayoutChanged_ok {R : Type} (w : World R) (s s1 : Widget)
    (h : onLayoutChanged w s = .ok s1) :
    ∃ styles, currentLayoutSliceViewInteractorStyles w s = .ok styles ∧
      s1 = layoutChangedTo s styles := by
  unfold onLayoutChanged at h
  have hc : currentLayoutSliceViewInteractorStyles w
      { s with
        connections := s.ObservedInteractorStyles.foldl disconnectStyle s.connections
        ObservedInteractorStyles := [] } = currentLayoutSliceViewInteractorStyles w s := rfl
  simp only [hc] at h
  cases hs : currentLayoutSliceViewInteractorStyles w s with
  | error e => simp [hs] at h
  | ok styles =>
    simp only [hs, Except.ok.injEq] at h
    exact ⟨styles, rfl, h.symm⟩

theorem onLayoutChanged_resolved {R : Type} (w : World R) (s : Widget)
    (hres : LayoutResolved w s.LayoutManager) :
    onLayoutChanged w s = .ok (layoutChangedTo s (layoutStyles w s.LayoutManager)) := by
  have hc : currentLayoutSliceViewInteractorStyles w
      { s with
        connections := s.ObservedInteractorStyles.foldl disconnectStyle s.connections
        ObservedInteractorStyles := [] } = currentLayoutSliceViewInteractorStyles w s := rfl
  simp only [onLayoutChanged, hc, currentStyles_resolved w s hres, layoutChangedTo]

theorem layoutChangedTo_observed (s : Widget) (styles : List Nat) :
    (layoutChangedTo s styles).ObservedInteractorStyles = styles := by
  simp [layoutChangedTo, foldl_addObserver_observed]

theorem mem_layoutChangedTo (s : Widget) (styles : List Nat) (c : Connection) :
    c ∈ (layoutChangedTo s styles).connections ↔
      IsObserverConnection styles c ∨
        (c ∈ s.connections ∧ ¬ IsObserverConnection s.ObservedInteractorStyles c) := by
  simp only [layoutChangedTo, mem_foldl_addObserver, mem_foldl_disconnectStyle]
  tauto

theorem layoutChangedTo_frame (s : Widget) (styles : List Nat) :
    (layoutChangedTo s styles).MRMLTransformNode = s.MRMLTransformNode ∧
    (layoutChangedTo s styles).LayoutManager = s.LayoutManager ∧
    (layoutChangedTo s styles).enabled = s.enabled ∧
    (layoutChangedTo s styles).TransformToParentInfoTextBrowser =
      s.TransformToParentInfoTextBrowser ∧
    (layoutChangedTo s styles).TransformFromParentInfoTextBrowser =
      s.TransformFromParentInfoTextBrowser ∧
    (layoutChangedTo s styles).ViewerDisplacementVectorRAS = s.ViewerDisplacementVectorRAS ∧
    (layoutChangedTo s styles).layoutChangedConnections = s.layoutChangedConnections := by
  simpa [layoutChangedTo] using foldl_addObserver_frame styles
    { s with
      connections := s.ObservedInteractorStyles.foldl disconnectStyle s.connections
      ObservedInteractorStyles := [] }

theorem observedOwned_of_eq {R : Type} (w : World R) (s s1 : Widget)
    (hm : s1.LayoutManager = s.LayoutManager)
    (ho : s1.ObservedInteractorStyles = s.ObservedInteractorStyles)
    (h : ObservedOwned w s) : ObservedOwned w s1 := by
  intro style hs
  rw [ho] at hs
  obtain ⟨sw, h1, h2⟩ := h style hs
  refine ⟨sw, ?_, h2⟩
  simpa [slicerWidget, hm] using h1

theorem onLayoutChanged_owned {R : Type} (w : World R) (s s1 : Widget)
    (h : onLayoutChanged w s = .ok s1) : ObservedOwned w s1 := by
  obtain ⟨styles, hs, rfl⟩ := onLayoutChanged_ok w s s1 h
  intro style hmem
  rw [layoutChangedTo_observed] at hmem
  have hm := (layoutChangedTo_frame s styles).2.1
  unfold currentLayoutSliceViewInteractorStyles at hs
  unfold slicerWidget
  rw [hm]
  cases hl : s.LayoutManager with
  | none =>
    simp only [hl, Except.ok.injEq] at hs
    subst hs
    simp at hmem
  | some m =>
    simp only [hl] at hs
    rcases interactorStylesLoop_found _ _ _ _ hs style hmem with hnil | hfound
    · simp at hnil
    · exact hfound

theorem processEvent_ok {R : Type} (ops : DoubleOps R) (w : World R) (s s1 : Widget)
    (caller : Option VtkObject) (e : VtkEvent)
    (h : processEvent ops w s caller e = .ok s1) :
    ∃ label, s1 = { s with ViewerDisplacementVectorRAS := label } := by
  unfold processEvent at h
  split at h
  · cases h
    exact ⟨_, rfl⟩
  · split at h
    · split at h
      · cases h
      · split at h
        · cases h
        · dsimp only at h
          split at h
          · cases h
          · cases h
          · split at h
            · cases h
              exact ⟨s.ViewerDisplacementVectorRAS, rfl⟩
            · split at h
              · cases h
                exact ⟨_, rfl⟩
              · cases h
    · cases h
      exact ⟨s.ViewerDisplacementVectorRAS, rfl⟩

theorem setLayoutManager_ok {R : Type} (w : World R) (s s1 : Widget) (m : Option Nat)
    (h : setLayoutManager w s m = .ok s1) :
    s1 = s ∨ ∃ s0, s0.MRMLTransformNode = s.MRMLTransformNode ∧ s0.enabled = s.enabled ∧
      onLayoutChanged w s0 = .ok s1 := by
  unfold setLayoutManager at h
  split at h
  · cases h
    exact Or.inl rfl
  · refine Or.inr ⟨_, ?_, ?_, h⟩ <;> rfl

theorem mem_rebound (old new : Option Nat) (conns : List Nat) (k : Nat) :
    k ∈ (match new with
        | none =>
          (match old with
            | none => conns
            | some o => disconnectLayoutChanged o conns)
        | some n =>
          connectLayoutChanged n
            (match old with
              | none => conns
              | some o => disconnectLayoutChanged o conns)) ↔
      (new = some k ∨ (k ∈ conns ∧ old ≠ some k)) := by
  cases old with
  | none =>
    cases new with
    | none => simp
    | some n =>
      simp only [connectLayoutChanged, List.mem_append, List.mem_singleton, Option.some.injEq]
      constructor
      · rintro (h | h)
        · exact Or.inr ⟨h, by simp⟩
        · exact Or.inl h.symm
      · rintro (h | h)
        · exact Or.inr h.symm
        · exact Or.inl h.1
  | some o =>
    have hf : k ∈ disconnectLayoutChanged o conns ↔ k ∈ conns ∧ k ≠ o := by
      simp [disconnectLayoutChanged]
    cases new with
    | none =>
      simp only [hf]
      constructor
      · rintro ⟨h1, h2⟩
        exact Or.inr ⟨h1, fun h => h2 (Option.some.inj h).symm⟩
      · rintro (h | ⟨h1, h2⟩)
        · cases h
        · exact ⟨h1, fun h => h2 (by rw [h])⟩
    | some n =>
      simp only [connectLayoutChanged, List.mem_append, List.mem_singleton, hf,
        Option.some.injEq]
      constructor
      · rintro (⟨h1, h2⟩ | h)
        · exact Or.inr ⟨h1, fun h => h2 (Option.some.inj h).symm⟩
        · exact Or.inl h.symm
      · rintro (h | ⟨h1, h2⟩)
        · exact Or.inr h.symm
        · exact Or.inl ⟨h1, fun h => h2 (by rw [h])⟩

theorem demoWorld_resolved (manager : Option Nat) : LayoutResolved demoWorld manager := by
  intro m _ name hn
  simp only [demoWorld, demoLayout, List.mem_cons, List.mem_singleton, List.not_mem_nil,
    or_false] at hn
  rcases hn with rfl | rfl <;> simp [demoWorld, demoLayout]

/-! ## Layout tracking -/

/-- C1: when every slice view name of the current layout has a slice widget,
`onLayoutChanged` returns normally from every widget state; the observed list is
then the list of interaction styles of the current slice views (one per slice
view name, in order; empty without a layout manager), whatever was observed
before.  Afterwards `processEvent` is connected to the pointer-move, the
pointer-enter and the pointer-leave event of every style of the new list, and to
none of these three events of a previously observed style that is not in the new
list; a connection is held exactly when it is one of these three events of a
style of the new list, or was held before and is not one of them for a
previously observed style.  If the widget held no other connection to
`processEvent` than those of its observed list, then afterwards `processEvent`
is connected to an event of a style exactly when the style is in the new list
and the event is one of the three. -/
theorem onLayoutChanged_spec {R : Type} (w : World R) (s : Widget)
    (hres : LayoutResolved w s.LayoutManager) :
    ∃ s1, onLayoutChanged w s = .ok s1 ∧
      s1.ObservedInteractorStyles = layoutStyles w s.LayoutManager ∧
      (∀ m, s.LayoutManager = some m →
        s1.ObservedInteractorStyles.length = (w.layoutManager m).sliceViewNames.length) ∧
      (s.LayoutManager = none → s1.ObservedInteractorStyles = []) ∧
      (∀ c, c ∈ s1.connections ↔
        IsObserverConnection s1.ObservedInteractorStyles c ∨
          (c ∈ s.connections ∧ ¬ IsObserverConnection s.ObservedInteractorStyles c)) ∧
      ((∀ c ∈ s.connections, c.slot = .processEvent →
          IsObserverConnection s.ObservedInteractorStyles c) →
        ∀ c, c.slot = .processEvent →
          (c ∈ s1.connections ↔ IsObserverConnection s1.ObservedInteractorStyles c)) ∧
      (∀ observed, ∃ s2,
        onLayoutChanged w { s with ObservedInteractorStyles := observed } = .ok s2 ∧
          s2.ObservedInteractorStyles = s1.ObservedInteractorStyles) ∧
      (∀ style ∈ s1.ObservedInteractorStyles,
        (⟨.interactorStyle style, .MouseMoveEvent, .processEvent⟩ : Connection)
            ∈ s1.connections ∧
          (⟨.interactorStyle style, .EnterEvent, .processEvent⟩ : Connection)
            ∈ s1.connections ∧
          (⟨.interactorStyle style, .LeaveEvent, .processEvent⟩ : Connection)
            ∈ s1.connections) ∧
      (∀ style ∈ s.ObservedInteractorStyles, style ∉ s1.ObservedInteractorStyles →
        (⟨.interactorStyle style, .MouseMoveEvent, .processEvent⟩ : Connection)
            ∉ s1.connections ∧
          (⟨.interactorStyle style, .EnterEvent, .processEvent⟩ : Connection)
            ∉ s1.connections ∧
          (⟨.interactorStyle style, .LeaveEvent, .processEvent⟩ : Connection)
            ∉ s1.connections) ∧
      ((∀ c ∈ s.connections, c.slot = .processEvent →
          IsObserverConnection s.ObservedInteractorStyles c) →
        ∀ style e,
          ((⟨.interactorStyle style, e, .processEvent⟩ : Connection) ∈ s1.connections ↔
            style ∈ s1.ObservedInteractorStyles ∧
              (e = .MouseMoveEvent ∨ e = .EnterEvent ∨ e = .LeaveEvent))) := by
  refine ⟨_, onLayoutChanged_resolved w s hres, ?_, ?_, ?_, ?_, ?_, ?_, ?_, ?_, ?_⟩
  · exact layoutChangedTo_observed _ _
  · intro m hm
    rw [layoutChangedTo_observed, hm]
    exact filterMap_length_resolved _ _ (hres m hm)
  · intro hm
    rw [layoutChangedTo_observed, hm]
    rfl
  · intro c
    rw [layoutChangedTo_observed]
    exact mem_layoutChangedTo _ _ c
  · intro hcons c hslot
    rw [layoutChangedTo_observed, mem_layoutChangedTo]
    constructor
    · rintro (h | ⟨h1, h2⟩)
      · exact h
      · exact absurd (hcons c h1 hslot) h2
    · intro h
      exact Or.inl h
  · intro observed
    refine ⟨_, onLayoutChanged_resolved w { s with ObservedInteractorStyles := observed } hres,
      ?_⟩
    rw [layoutChangedTo_observed, layoutChangedTo_observed]
  · intro style hs
    rw [layoutChangedTo_observed] at hs
    simp only [mem_layoutChangedTo, isObserverConnection_iff, hs, true_and]
    simp
  · intro style hs hn
    rw [layoutChangedTo_observed] at hn
    simp only [mem_layoutChangedTo, isObserverConnection_iff, hs, hn, false_and, true_and,
      false_or]
    simp
  · intro hcons style e
    rw [layoutChangedTo_observed, mem_layoutChangedTo, isObserverConnection_iff]
    constructor
    · rintro (h | ⟨h1, h2⟩)
      · exact h
      · exact absurd (hcons _ h1 rfl) h2
    · intro h
      exact Or.inl h

/-- C6 (amended): `setLayoutManager(m)` with `m` the manager already held returns
the state unchanged.  With `m` different from the manager held, and every slice
view name of the current layout of `m` having a slice widget, it returns
normally; afterwards `layoutManager()` is `m`, the widget is connected to the
layout-changed signal of a manager `k` exactly when `k` is `m`, or when it was
connected before and `k` is not the manager held before, and the observed list is
the list of interaction styles of the slice views of the layout of `m`. -/
theorem setLayoutManager_spec {R : Type} (w : World R) (s : Widget) (m : Option Nat)
    (hres : LayoutResolved w m) :
    (m = s.LayoutManager → setLayoutManager w s m = .ok s) ∧
    (m ≠ s.LayoutManager →
      ∃ s1, setLayoutManager w s m = .ok s1 ∧
        layoutManager s1 = m ∧
        (∀ k, k ∈ s1.layoutChangedConnections ↔
          (m = some k ∨ (k ∈ s.layoutChangedConnections ∧ s.LayoutManager ≠ some k))) ∧
        s1.ObservedInteractorStyles = layoutStyles w m ∧
        (∀ c, c ∈ s1.connections ↔
          IsObserverConnection s1.ObservedInteractorStyles c ∨
            (c ∈ s.connections ∧ ¬ IsObserverConnection s.ObservedInteractorStyles c))) := by
  constructor
  · intro h
    simp [setLayoutManager, h]
  · intro h
    simp only [setLayoutManager, h, if_false]
    refine ⟨_, onLayoutChanged_resolved w _ hres, ?_, ?_, ?_, ?_⟩
    · exact (layoutChangedTo_frame _ _).2.1
    · intro k
      rw [(layoutChangedTo_frame _ _).2.2.2.2.2.2]
      exact mem_rebound s.LayoutManager m s.layoutChangedConnections k
    · exact layoutChangedTo_observed _ _
    · intro c
      rw [layoutChangedTo_observed]
      exact mem_layoutChangedTo _ _ c

/-- C8 (amended): in a state reached by `onLayoutChanged`, or by `setLayoutManager`
with a manager different from the one held, and then by any operations in the
same world, `slicerWidget` finds for every observed interaction style a slice
widget whose slice view has that style, so that a pointer-enter or pointer-move
event from an observed style fails none of the assertions of `processEvent`.  In
any state `slicerWidget` returns null when no layout manager is set and when
every slice view of the layout has another style. -/
theorem synced_slicerWidget_found {R : Type} (ops : DoubleOps R) (w : World R) (s : Widget)
    (h : SyncedWith ops w s) :
    (∀ style ∈ s.ObservedInteractorStyles,
      ∃ sw, slicerWidget w s style = .ok (some sw) ∧ sw.sliceView.interactorStyle = style) ∧
    (∀ e style, (e = .EnterEvent ∨ e = .MouseMoveEvent) → style ∈ s.ObservedInteractorStyles →
      processEvent ops w s (some (.interactorObserver style)) e ≠ .error .callerNotObserved ∧
      processEvent ops w s (some (.interactorObserver style)) e ≠ .error .sliceWidgetNotFound ∧
      processEvent ops w s (some (.interactorObserver style)) e ≠ .error .nullSliceWidget) ∧
    (∀ (s0 : Widget) style, s0.LayoutManager = none → slicerWidget w s0 style = .ok none) ∧
    (∀ (s0 : Widget) m style, s0.LayoutManager = some m →
      (∀ name ∈ (w.layoutManager m).sliceViewNames,
        ∃ sw, (w.layoutManager m).sliceWidget name = some sw ∧
          sw.sliceView.interactorStyle ≠ style) →
      slicerWidget w s0 style = .ok none) := by
  have hinv : ObservedOwned w s := by
    induction h with
    | layoutChanged h0 => exact onLayoutChanged_owned w _ _ h0
    | managerChanged m hm h0 =>
      simp only [setLayoutManager, hm, if_false] at h0
      exact onLayoutChanged_owned w _ _ h0
    | transformSet t _ ih =>
      refine observedOwned_of_eq w _ _ ?_ ?_ ih <;>
        cases t <;> simp [setMRMLTransformNode, updateWidgetFromMRML]
    | managerSet m _ h0 ih =>
      unfold setLayoutManager at h0
      split at h0
      · cases h0
        exact ih
      · exact onLayoutChanged_owned w _ _ h0
    | eventProcessed caller e _ h0 ih =>
      obtain ⟨label, rfl⟩ := processEvent_ok ops w _ _ caller e h0
      exact observedOwned_of_eq w _ _ rfl rfl ih
    | @updated s2 _ ih =>
      refine observedOwned_of_eq w _ _ ?_ ?_ ih <;>
        cases hp : s2.MRMLTransformNode <;> simp [updateWidgetFromMRML, hp]
  refine ⟨hinv, ?_, ?_, ?_⟩
  · intro e style hev hobs
    obtain ⟨sw, hsw, _⟩ := hinv style hobs
    have hne : e ≠ .LeaveEvent := by
      rcases hev with h1 | h1 <;> simp [h1]
    cases hT : s.MRMLTransformNode with
    | none => simp [processEvent, hne, hev, vtkInteractorObserver.SafeDownCast, hobs, hsw, hT]
    | some t =>
      simp only [processEvent, hne, hev, vtkInteractorObserver.SafeDownCast, hobs, hsw, hT, if_true,
        if_false, not_true_eq_false]
      split <;> simp
  · intro s0 style h0
    simp [slicerWidget, h0]
  · intro s0 m style h0 hall
    simp only [slicerWidget, h0]
    exact slicerWidgetLoop_absent _ _ _ hall

/-- C9: the freshly constructed widget has no transform attached, no layout
manager, an empty observed list, is disabled and has an empty displacement label;
in every state reachable from it by `setMRMLTransformNode`, `setLayoutManager`,
`onLayoutChanged`, `processEvent` and `updateWidgetFromMRML` the widget is enabled
if and only if a transform is attached. -/
theorem reachable_enabled_iff_attached {R : Type} (ops : DoubleOps R) (a b c : String)
    (s : Widget) (h : Reachable ops s) :
    mrmlTransformNode (construct a b c) = none ∧
    layoutManager (construct a b c) = none ∧
    (construct a b c).ObservedInteractorStyles = [] ∧
    (construct a b c).enabled = false ∧
    (construct a b c).ViewerDisplacementVectorRAS = "" ∧
    (s.enabled = true ↔ mrmlTransformNode s ≠ none) := by
  refine ⟨rfl, rfl, rfl, rfl, rfl, ?_⟩
  have key : s.enabled = s.MRMLTransformNode.isSome := by
    induction h with
    | fresh a b c => rfl
    | transformSet w t _ _ =>
      cases t <;> simp [setMRMLTransformNode, updateWidgetFromMRML]
    | managerSet w m _ h0 ih =>
      rcases setLayoutManager_ok w _ _ m h0 with rfl | ⟨s0, hT, hE, h1⟩
      · exact ih
      · obtain ⟨styles, _, rfl⟩ := onLayoutChanged_ok w _ _ h1
        rw [(layoutChangedTo_frame _ _).1, (layoutChangedTo_frame _ _).2.2.1, hT, hE]
        exact ih
    | layoutChanged w _ h0 ih =>
      obtain ⟨styles, _, rfl⟩ := onLayoutChanged_ok w _ _ h0
      rw [(layoutChangedTo_frame _ _).1, (layoutChangedTo_frame _ _).2.2.1]
      exact ih
    | eventProcessed w caller e _ h0 ih =>
      obtain ⟨label, rfl⟩ := processEvent_ok ops w _ _ caller e h0
      exact ih
    | @updated s2 w _ _ =>
      cases hp : s2.MRMLTransformNode <;> simp [updateWidgetFromMRML, hp]
  rw [key]
  unfold mrmlTransformNode
  cases s.MRMLTransformNode <;> simp

/-! ## Pointer events -/

/-- C3: in every widget state, for every caller, `processEvent` with the
pointer-leave event returns normally, the displacement label is empty afterwards
and nothing else has changed. -/
theorem processEvent_leave_clears_label {R : Type} (ops : DoubleOps R) (w : World R)
    (s : Widget) (caller : Option VtkObject) :
    ∃ s1, processEvent ops w s caller .LeaveEvent = .ok s1 ∧
      s1.ViewerDisplacementVectorRAS = "" ∧
      s1 = { s with ViewerDisplacementVectorRAS := "" } := by
  refine ⟨resetLabels s, ?_, rfl, rfl⟩
  simp [processEvent]

/-- C2: with transform `a` attached, a pointer-enter or pointer-move event from
an observed interaction style whose event position converts, through the owning
slice view, to the world point `(p0, p1, p2)` sets the displacement label to
"Displacement Vector in RAS: (dx, dy, dz)", the components being those of
`a.forward(P) - P`, each rendered in fixed format with one decimal place; the
rest of the state is unchanged. -/
theorem processEvent_displacement {R : Type} (ops : DoubleOps R) (w : World R) (s : Widget)
    (eventId : VtkEvent) (a style : Nat) (sw : SliceWidget R) (p0 p1 p2 : R)
    (hA : s.MRMLTransformNode = some a)
    (hev : eventId = .EnterEvent ∨ eventId = .MouseMoveEvent)
    (hobs : style ∈ s.ObservedInteractorStyles)
    (hsw : slicerWidget w s style = .ok (some sw))
    (hras : sw.sliceView.convertXYZToRAS
        (sw.sliceView.convertDeviceToXYZ
          [(w.eventPosition style).1, (w.eventPosition style).2]) = [p0, p1, p2]) :
    processEvent ops w s (some (.interactorObserver style)) eventId =
      .ok { s with
            ViewerDisplacementVectorRAS :=
              "Displacement Vector in RAS: ("
                ++ ops.argF1 (ops.sub ((w.transformNode a).transformDoublePoint p0 p1 p2).1 p0)
                ++ ", "
                ++ ops.argF1 (ops.sub ((w.transformNode a).transformDoublePoint p0 p1 p2).2.1 p1)
                ++ ", "
                ++ ops.argF1 (ops.sub ((w.transformNode a).transformDoublePoint p0 p1 p2).2.2 p2)
                ++ ")" } := by
  have hne : eventId ≠ .LeaveEvent := by
    rcases hev with h | h <;> simp [h]
  simp [processEvent, hne, hev, vtkInteractorObserver.SafeDownCast, hobs, hsw, hras, hA, displacementText]

/-- C7: with no transform attached, a pointer-enter or pointer-move event from an
observed interaction style changes nothing: whenever `processEvent` returns, it
returns the state it was given (displacement label, attached transform, layout
manager, observed list, enabled flag, description fields, subscriptions), and it
does return as soon as the owning slice widget is found. -/
theorem processEvent_no_transform_unchanged {R : Type} (ops : DoubleOps R) (w : World R)
    (s : Widget) (eventId : VtkEvent) (style : Nat)
    (hT : s.MRMLTransformNode = none)
    (hev : eventId = .EnterEvent ∨ eventId = .MouseMoveEvent)
    (hobs : style ∈ s.ObservedInteractorStyles) :
    (∀ s1, processEvent ops w s (some (.interactorObserver style)) eventId = .ok s1 → s1 = s) ∧
    (∀ sw, slicerWidget w s style = .ok (some sw) →
      processEvent ops w s (some (.interactorObserver style)) eventId = .ok s) := by
  have hne : eventId ≠ .LeaveEvent := by
    rcases hev with h | h <;> simp [h]
  constructor
  · intro s1 h
    simp only [processEvent, hne, hev, vtkInteractorObserver.SafeDownCast, hobs, hT, if_true, if_false,
      not_true_eq_false] at h
    cases hl : slicerWidget w s style with
    | error e => simp [hl] at h
    | ok r =>
      cases r with
      | none => simp [hl] at h
      | some sw =>
        simp only [hl, Except.ok.injEq] at h
        exact h.symm
  · intro sw hsw
    simp [processEvent, hne, hev, vtkInteractorObserver.SafeDownCast, hobs, hsw, hT]

/-! ## The attached transform -/

/-- C4 (amended): after `setMRMLTransformNode(a)` followed by
`setMRMLTransformNode(none)` no transform is attached, the widget is disabled and
the forward- and inverse-description fields are empty; the displacement label
keeps the text it had before the two calls. -/
theorem attach_then_detach {R : Type} (w1 w2 : World R) (s : Widget) (a : Nat) :
    mrmlTransformNode (setMRMLTransformNode w2 (setMRMLTransformNode w1 s (some a)) none) = none ∧
    (setMRMLTransformNode w2 (setMRMLTransformNode w1 s (some a)) none).enabled = false ∧
    (setMRMLTransformNode w2 (setMRMLTransformNode w1 s (some a)) none).TransformToParentInfoTextBrowser
      = "" ∧
    (setMRMLTransformNode w2 (setMRMLTransformNode w1 s (some a)) none).TransformFromParentInfoTextBrowser
      = "" ∧
    (setMRMLTransformNode w2 (setMRMLTransformNode w1 s (some a)) none).ViewerDisplacementVectorRAS
      = s.ViewerDisplacementVectorRAS := by
  simp [setMRMLTransformNode, updateWidgetFromMRML, mrmlTransformNode]

/-- C5: after `setMRMLTransformNode(t)` the attached transform is `t`; the widget
holds a modification subscription on a transform `n` exactly when `n` is `t`, or
when it held one before and `n` is not the previous transform; the description
fields are those of `t`, or empty when `t` is none.  `updateWidgetFromMRML` keeps
the attached transform and sets the description fields to its descriptions, or
to the empty text when there is none. -/
theorem setMRMLTransformNode_spec {R : Type} (w : World R) (s : Widget) (t : Option Nat) :
    mrmlTransformNode (setMRMLTransformNode w s t) = t ∧
    (∀ n, modifiedConnection n ∈ (setMRMLTransformNode w s t).connections ↔
      (t = some n ∨ (modifiedConnection n ∈ s.connections ∧ s.MRMLTransformNode ≠ some n))) ∧
    (∀ n, t = some n →
      (setMRMLTransformNode w s t).TransformToParentInfoTextBrowser =
          (w.transformNode n).transformToParentInfo ∧
        (setMRMLTransformNode w s t).TransformFromParentInfoTextBrowser =
          (w.transformNode n).transformFromParentInfo) ∧
    (t = none →
      (setMRMLTransformNode w s t).TransformToParentInfoTextBrowser = "" ∧
        (setMRMLTransformNode w s t).TransformFromParentInfoTextBrowser = "") ∧
    (setMRMLTransformNode w s t).enabled = t.isSome ∧
    mrmlTransformNode (updateWidgetFromMRML w s) = mrmlTransformNode s ∧
    (∀ n, mrmlTransformNode s = some n →
      (updateWidgetFromMRML w s).TransformToParentInfoTextBrowser =
          (w.transformNode n).transformToParentInfo ∧
        (updateWidgetFromMRML w s).TransformFromParentInfoTextBrowser =
          (w.transformNode n).transformFromParentInfo) ∧
    (mrmlTransformNode s = none →
      (updateWidgetFromMRML w s).TransformToParentInfoTextBrowser = "" ∧
        (updateWidgetFromMRML w s).TransformFromParentInfoTextBrowser = "") := by
  refine ⟨?_, ?_, ?_, ?_, ?_, ?_, ?_, ?_⟩
  · cases t <;> simp [setMRMLTransformNode, updateWidgetFromMRML, mrmlTransformNode]
  · intro n
    have hconn : (setMRMLTransformNode w s t).connections =
        qvtkReconnect (s.MRMLTransformNode.map Source.transformNode)
          (t.map Source.transformNode) .ModifiedEvent .updateWidgetFromMRML s.connections := by
      cases t <;> simp [setMRMLTransformNode, updateWidgetFromMRML]
    rw [hconn]
    cases hp : s.MRMLTransformNode <;> cases t <;>
      simp [qvtkReconnect, mem_qvtkConnect, mem_qvtkDisconnect, modifiedConnection, eq_comm,
        or_comm]
  · intro n hn
    subst hn
    simp [setMRMLTransformNode, updateWidgetFromMRML]
  · intro hn
    subst hn
    simp [setMRMLTransformNode, updateWidgetFromMRML]
  · cases t <;> simp [setMRMLTransformNode, updateWidgetFromMRML]
  · cases h : s.MRMLTransformNode <;> simp [updateWidgetFromMRML, mrmlTransformNode, h]
  · intro n hn
    simp only [mrmlTransformNode] at hn
    simp [updateWidgetFromMRML, hn]
  · intro hn
    simp only [mrmlTransformNode] at hn
    simp [updateWidgetFromMRML, hn]

/-- C10: the generic-node overload of `setMRMLTransformNode` gives, for a
transform node, the state of `setMRMLTransformNode` on that transform; for a null
node and for a node that is not a transform node it gives the state of
`setMRMLTransformNode(none)`, in which no transform is attached, the widget is
disabled and both description fields are empty. -/
theorem setMRMLTransformNodeFromNode_spec {R : Type} (w : World R) (s : Widget) (n i : Nat) :
    setMRMLTransformNodeFromNode w s (some (.transformNode n)) =
      setMRMLTransformNode w s (some n) ∧
    setMRMLTransformNodeFromNode w s none = setMRMLTransformNode w s none ∧
    setMRMLTransformNodeFromNode w s (some (.otherNode i)) = setMRMLTransformNode w s none ∧
    mrmlTransformNode (setMRMLTransformNode w s none) = none ∧
    (setMRMLTransformNode w s none).enabled = false ∧
    (setMRMLTransformNode w s none).TransformToParentInfoTextBrowser = "" ∧
    (setMRMLTransformNode w s none).TransformFromParentInfoTextBrowser = "" := by
  simp [setMRMLTransformNodeFromNode, vtkMRMLTransformNode.SafeDownCast, setMRMLTransformNode,
    updateWidgetFromMRML, mrmlTransformNode]

/-! ## Concrete runs -/

theorem onLayoutChanged_spec_witness :
    LayoutResolved demoWorld observing99.LayoutManager ∧
      ∃ s1, onLayoutChanged demoWorld observing99 = .ok s1 ∧
        s1.ObservedInteractorStyles = [7, 8] ∧
        s1.connections =
          [⟨.interactorStyle 7, .MouseMoveEvent, .processEvent⟩,
           ⟨.interactorStyle 7, .EnterEvent, .processEvent⟩,
           ⟨.interactorStyle 7, .LeaveEvent, .processEvent⟩,
           ⟨.interactorStyle 8, .MouseMoveEvent, .processEvent⟩,
           ⟨.interactorStyle 8, .EnterEvent, .processEvent⟩,
           ⟨.interactorStyle 8, .LeaveEvent, .processEvent⟩] ∧
        (⟨.interactorStyle 8, .LeaveEvent, .processEvent⟩ : Connection) ∈ s1.connections ∧
        (⟨.interactorStyle 99, .MouseMoveEvent, .processEvent⟩ : Connection)
          ∉ s1.connections := by
  refine ⟨demoWorld_resolved _, ?_⟩
  obtain ⟨s1, h1, h2, _, _, _, _, _, h8, h9, _⟩ :=
    onLayoutChanged_spec demoWorld observing99 (demoWorld_resolved _)
  have h7 : (8 : Nat) ∈ s1.ObservedInteractorStyles := by rw [h2]; decide
  have h99 : (99 : Nat) ∉ s1.ObservedInteractorStyles := by rw [h2]; decide
  have hrun : onLayoutChanged demoWorld observing99 = .ok unattachedObservingWidget := rfl
  have hs1 : s1 = unattachedObservingWidget := by
    rw [hrun] at h1
    exact (Except.ok.inj h1).symm
  refine ⟨s1, h1, by rw [h2]; decide, by rw [hs1]; rfl, (h8 8 h7).2.2, ?_⟩
  exact (h9 99 (by decide) h99).1

theorem processEvent_displacement_witness :
    processEvent intOps demoWorld observingWidget (some (.interactorObserver 8)) .EnterEvent =
      .ok labelledWidget :=
  processEvent_displacement intOps demoWorld observingWidget .EnterEvent 5 8 ⟨2, demoView 8⟩
    10 20 0 rfl (Or.inl rfl) (by decide) rfl rfl

theorem processEvent_no_transform_unchanged_witness :
    processEvent intOps demoWorld unattachedObservingWidget (some (.interactorObserver 7))
      .MouseMoveEvent = .ok unattachedObservingWidget :=
  (processEvent_no_transform_unchanged intOps demoWorld unattachedObservingWidget
    .MouseMoveEvent 7 rfl (Or.inr rfl) (by decide)).2 ⟨1, demoView 7⟩ rfl

/-- The claim of C4 fails on the displacement label: the fresh widget, after
`setMRMLTransformNode(5)`, `setLayoutManager(1)` and a pointer-enter event from
style 8, shows a displacement text, and still shows it after
`setMRMLTransformNode(5)` followed by `setMRMLTransformNode(none)`. -/
theorem detach_keeps_label_counterexample :
    setLayoutManager demoWorld attachedWidget (some 1) = .ok observingWidget ∧
    processEvent intOps demoWorld observingWidget (some (.interactorObserver 8)) .EnterEvent =
      .ok labelledWidget ∧
    (setMRMLTransformNode demoWorld (setMRMLTransformNode demoWorld labelledWidget (some 5))
      none).ViewerDisplacementVectorRAS = "Displacement Vector in RAS: (1.0, 2.0, 3.0)" ∧
    (setMRMLTransformNode demoWorld (setMRMLTransformNode demoWorld labelledWidget (some 5))
      none).ViewerDisplacementVectorRAS ≠ "" :=
  ⟨rfl, rfl, rfl, by decide⟩

/-- The claim of C6 fails when the manager is the one already held: the fresh
widget given manager 1 while its layout has no slice view observes nothing; once
the layout shows the styles 7 and 8, `setLayoutManager(1)` returns the state
unchanged, the observed list still empty. -/
theorem setLayoutManager_same_manager_counterexample :
    setLayoutManager emptyWorld (construct "" "" "") (some 1) = .ok staleWidget ∧
    setLayoutManager demoWorld staleWidget (some 1) = .ok staleWidget ∧
    layoutStyles demoWorld (some 1) = [7, 8] ∧
    staleWidget.ObservedInteractorStyles ≠ layoutStyles demoWorld (some 1) :=
  ⟨rfl, rfl, by decide, by decide⟩

theorem setLayoutManager_spec_witness :
    LayoutResolved demoWorld (some 1) ∧ some 1 ≠ (construct "" "" "").LayoutManager ∧
      ∃ s1, setLayoutManager demoWorld (construct "" "" "") (some 1) = .ok s1 ∧
        layoutManager s1 = some 1 ∧ s1.ObservedInteractorStyles = [7, 8] := by
  refine ⟨demoWorld_resolved _, by decide, ?_⟩
  obtain ⟨s1, h1, h2, _, h4, _⟩ :=
    (setLayoutManager_spec demoWorld (construct "" "" "") (some 1) (demoWorld_resolved _)).2
      (by decide)
  exact ⟨s1, h1, h2, by rw [h4]; decide⟩

/-- The claim of C8 fails for a state reached by `setLayoutManager` with the
manager already held: the fresh widget given manager 1 while its layout shows
style 99 observes style 99; once the layout shows the styles 7 and 8,
`setLayoutManager(1)` returns the state unchanged, `slicerWidget` returns null
for the observed style 99 and a pointer-enter event from it fails the assertion
that the owning slice widget is found. -/
theorem setLayoutManager_stale_observer_counterexample :
    setLayoutManager greenWorld (construct "" "" "") (some 1) = .ok observing99 ∧
    setLayoutManager demoWorld observing99 (some 1) = .ok observing99 ∧
    99 ∈ observing99.ObservedInteractorStyles ∧
    slicerWidget demoWorld observing99 99 = .ok none ∧
    processEvent intOps demoWorld observing99 (some (.interactorObserver 99)) .EnterEvent =
      .error .sliceWidgetNotFound :=
  ⟨rfl, rfl, by decide, rfl, rfl⟩

theorem synced_slicerWidget_found_witness :
    SyncedWith intOps demoWorld unattachedObservingWidget ∧
      ∃ sw, slicerWidget demoWorld unattachedObservingWidget 8 = .ok (some sw) ∧
        sw.sliceView.interactorStyle = 8 :=
  ⟨@SyncedWith.managerChanged Int intOps demoWorld (construct "" "" "")
      unattachedObservingWidget (some 1) (by decide) rfl,
    (synced_slicerWidget_found intOps demoWorld unattachedObservingWidget
      (@SyncedWith.managerChanged Int intOps demoWorld (construct "" "" "")
        unattachedObservingWidget (some 1) (by decide) rfl)).1 8 (by decide)⟩

theorem reachable_enabled_iff_attached_witness :
    Reachable intOps attachedWidget ∧
      (attachedWidget.enabled = true ↔ mrmlTransformNode attachedWidget ≠ none) :=
  ⟨Reachable.transformSet demoWorld (some 5) (Reachable.fresh "" "" ""),
    (reachable_enabled_iff_attached intOps "" "" "" attachedWidget
      (Reachable.transformSet demoWorld (some 5) (Reachable.fresh "" "" ""))).2.2.2.2.2⟩

end TransformInfoWidget
